import Mathlib

/-!
Verification development for the dominode-bootstrapper repository.

Shallow embedding of the provisioning logic in
`dominode_bootstrapper/{dbadmin,minioadmin,geonodeadmin,utils}.py`.
Pure functions (naming derivation, policy generation) are translated as
Lean functions; stateful code (SQL execution, minio/geonode admin
commands) is translated as explicit state passing together with a trace
of emitted actions; fallible code returns `Except`.
-/

/-! ## Python string ordering

Python's `sorted` on strings compares lexicographically by Unicode code
point.  Lean's built-in `String.ltb` does not reduce in the kernel, so
the comparison is modelled directly on the underlying character lists.
-/

/-- Lexicographic less-or-equal on character lists, comparing code points;
this is the order Python's `sorted` uses on strings. -/
def lexLe : List Char → List Char → Bool
  | [], _ => true
  | _ :: _, [] => false
  | c :: cs, d :: ds =>
    if c.toNat < d.toNat then true
    else if d.toNat < c.toNat then false
    else lexLe cs ds

/-- Python string comparison: lexicographic by code point. -/
def pyStrLe (a b : String) : Bool :=
  lexLe a.data b.data

/-- Ordering relation used to model Python's `sorted` on strings. -/
def PyLe (a b : String) : Prop := pyStrLe a b = true

instance : DecidableRel PyLe := fun a b => by
  unfold PyLe; infer_instance

/-- Totality of the lexicographic comparison. -/
def lexLe_total : ∀ a b : List Char, lexLe a b = true ∨ lexLe b a = true
  | [], _ => Or.inl rfl
  | _ :: _, [] => Or.inr rfl
  | c :: cs, d :: ds => by
    by_cases h1 : c.toNat < d.toNat
    · exact Or.inl (by simp [lexLe, h1])
    · by_cases h2 : d.toNat < c.toNat
      · exact Or.inr (by simp [lexLe, h1, h2])
      · cases lexLe_total cs ds with
        | inl h => exact Or.inl (by simp [lexLe, h1, h2, h])
        | inr h => exact Or.inr (by simp [lexLe, h1, h2, h])

/-- Transitivity of the lexicographic comparison. -/
def lexLe_trans : ∀ a b c : List Char,
    lexLe a b = true → lexLe b c = true → lexLe a c = true
  | [], _, _, _, _ => rfl
  | _ :: _, [], _, h, _ => by simp [lexLe] at h
  | _ :: _, _ :: _, [], _, h => by simp [lexLe] at h
  | a :: as, b :: bs, c :: cs, hab, hbc => by
    simp only [lexLe] at hab hbc ⊢
    by_cases h1 : a.toNat < b.toNat
    · by_cases h2 : b.toNat < c.toNat
      · simp [Nat.lt_trans h1 h2]
      · by_cases h3 : c.toNat < b.toNat
        · simp [h2, h3] at hbc
        · have hbceq : b.toNat = c.toNat := Nat.le_antisymm
            (Nat.le_of_not_lt h3) (Nat.le_of_not_lt h2)
          simp [hbceq ▸ h1]
    · by_cases h2 : b.toNat < a.toNat
      · simp [h1, h2] at hab
      · have habeq : a.toNat = b.toNat := Nat.le_antisymm
          (Nat.le_of_not_lt h2) (Nat.le_of_not_lt h1)
        simp only [h1, if_neg h1, h2, if_neg h2, if_false, if_true] at hab
        by_cases h3 : b.toNat < c.toNat
        · simp [habeq ▸ h3]
        · by_cases h4 : c.toNat < b.toNat
          · simp [h3, h4] at hbc
          · simp only [h3, if_neg h3, h4, if_neg h4, if_false] at hbc
            have h5 : ¬ a.toNat < c.toNat := habeq ▸ h3
            have h6 : ¬ c.toNat < a.toNat := habeq ▸ h4
            simp [h5, h6, lexLe_trans as bs cs hab hbc]

/-- Antisymmetry of the lexicographic comparison. -/
def lexLe_antisymm : ∀ a b : List Char,
    lexLe a b = true → lexLe b a = true → a = b
  | [], [], _, _ => rfl
  | [], _ :: _, _, h => by simp [lexLe] at h
  | _ :: _, [], h, _ => by simp [lexLe] at h
  | a :: as, b :: bs, hab, hba => by
    simp only [lexLe] at hab hba
    by_cases h1 : a.toNat < b.toNat
    · have h2 : ¬ b.toNat < a.toNat := Nat.lt_asymm h1
      simp [h1, h2] at hba
    · by_cases h2 : b.toNat < a.toNat
      · simp [h1, h2] at hab
      · simp only [h1, if_neg h1, h2, if_neg h2, if_false] at hab hba
        have hv : a.val = b.val := by
          have : a.val.toNat = b.val.toNat :=
            Nat.le_antisymm (Nat.le_of_not_lt h2) (Nat.le_of_not_lt h1)
          exact UInt32.ext this
        have : a = b := Char.ext hv
        rw [this, lexLe_antisymm as bs hab hba]

instance : IsTotal String PyLe :=
  ⟨fun a b => lexLe_total a.data b.data⟩

instance : IsTrans String PyLe :=
  ⟨fun a b c => lexLe_trans a.data b.data c.data⟩

instance : IsAntisymm String PyLe :=
  ⟨fun a b hab hba => by
    have h : a.data = b.data := lexLe_antisymm a.data b.data hab hba
    cases a; cases b; exact congrArg String.mk h⟩

/-- Model of Python's `sorted` on a list of strings: a stable ascending
sort by code-point order. -/
def pySorted (l : List String) : List String :=
  List.insertionSort PyLe l

/-! ## constants.py

The repository's `constants.py` module is not under `src/`; only its
usage sites are.  The `UserRole` enumeration is reconstructed from those
usage sites and the spec.
-/

namespace Constants

/-- Modelled from the spec: the role enumeration from the repository's
`constants.py` module (absent from the provided sources) — "Role:
enumerated variant — RegularUser | Editor". -/
inductive UserRole where
  | regular_department_user : UserRole
  | editor : UserRole
deriving DecidableEq, Repr

end Constants

open Constants

/-! ## utils.py -/

namespace Utils

/-- Embeds `utils.get_geoserver_db_username`. -/
def get_geoserver_db_username (department : String) : String :=
  department ++ "_geoserver"

/-- Embeds the per-department `geoserver_password` entry of the default
configuration built in `utils._get_default_config` (sections
`ppd-department` and `lsd-department`, both set to `dominode`). -/
def default_geoserver_password (department : String) : Option String :=
  if department = "ppd" ∨ department = "lsd" then some "dominode" else none

end Utils
/-! ## minioadmin.py — naming derivation and policy generation -/

namespace Minioadmin

def DOMINODE_STAGING_BUCKET_NAME : String := "dominode-staging"

def PUBLIC_BUCKET_NAME : String := "public"

def POLICY_VERSION : String := "2012-10-17"

/-- Embeds `minioadmin.get_staging_bucket_name`. -/
def get_staging_bucket_name (department : String) : String :=
  department ++ "-staging"

/-- Embeds `minioadmin.get_dominode_staging_root_dir_name`. -/
def get_dominode_staging_root_dir_name (department : String) : String :=
  DOMINODE_STAGING_BUCKET_NAME ++ "/" ++ department ++ "/"

/-- Embeds `minioadmin.get_public_root_dir_name`. -/
def get_public_root_dir_name (department : String) : String :=
  PUBLIC_BUCKET_NAME ++ "/" ++ department ++ "/"

/-- Embeds `minioadmin.get_policy_name`: joins the sorted department names with
dashes and appends a role-specific suffix. -/
def get_policy_name (role : UserRole) (departments : List String) : String :=
  let dept_names := String.intercalate "-" (pySorted departments)
  match role with
  | UserRole.regular_department_user => dept_names ++ "-regular-user-group-policy"
  | UserRole.editor => dept_names ++ "-editor-group-policy"

/-- Embeds `minioadmin.get_group_name`. -/
def get_group_name (role : UserRole) (policy : String) : String :=
  match role with
  | UserRole.regular_department_user => policy ++ "-user-group"
  | UserRole.editor => policy ++ "-editor-group"

/-- One statement of a minio access-policy document. -/
structure Statement where
  sid : String
  action : List String
  effect : String
  resource : List String
deriving DecidableEq, Repr

/-- A minio access-policy document. -/
structure Policy where
  version : String
  statement : List Statement
deriving DecidableEq, Repr

/-- Replace the element at index `i` of a list by applying `f` to it. -/
def modifyIdx (l : List α) (i : Nat) (f : α → α) : List α :=
  match l, i with
  | [], _ => []
  | x :: xs, 0 => f x :: xs
  | x :: xs, n + 1 => x :: modifyIdx xs n f

/-- One iteration of the department loop of `minioadmin.get_user_policy`:
append the department to every Sid, then add the department's staging
bucket to the deny statement and its staging paths to the allow statement. -/
def user_policy_step (policy : Policy) (department : String) : Policy :=
  let deny_bucket_index := 0
  let allow_full_access_index := 1
  let stmts := policy.statement.map
    (fun s => { s with sid := s.sid ++ "-" ++ department })
  let stmts := modifyIdx stmts deny_bucket_index (fun s =>
    { s with resource := s.resource ++
        ["arn:aws:s3:::" ++ get_staging_bucket_name department] })
  let stmts := modifyIdx stmts allow_full_access_index (fun s =>
    { s with resource := s.resource ++
        ["arn:aws:s3:::" ++ get_staging_bucket_name department ++ "/*",
         "arn:aws:s3:::" ++ get_dominode_staging_root_dir_name department ++ "*"] })
  { policy with statement := stmts }

/-- Embeds `minioadmin.get_user_policy`: policy for a regular user over the
input departments. -/
def get_user_policy (departments : List String) : Policy :=
  let base : Policy := {
    version := POLICY_VERSION
    statement := [
      { sid := "regular-user-deny-bucket-delete"
        action := ["s3:DeleteBucket"]
        effect := "Deny"
        resource := ["arn:aws:s3:::" ++ DOMINODE_STAGING_BUCKET_NAME] },
      { sid := "regular-user-allow-full-access"
        action := ["s3:*"]
        effect := "Allow"
        resource := [] },
      { sid := "regular-user-read-only-access"
        action := ["s3:GetBucketLocation", "s3:ListBucket", "s3:GetObject"]
        effect := "Allow"
        resource := ["arn:aws:s3:::" ++ DOMINODE_STAGING_BUCKET_NAME ++ "/*",
                     "arn:aws:s3:::" ++ PUBLIC_BUCKET_NAME ++ "/*"] }
    ] }
  departments.foldl user_policy_step base

/-- One iteration of the department loop of `minioadmin.get_editor_policy`:
like the user-policy step but the allow statement additionally receives
the department's public sub-directory path. -/
def editor_policy_step (policy : Policy) (department : String) : Policy :=
  let deny_bucket_index := 0
  let allow_full_access_index := 1
  let stmts := policy.statement.map
    (fun s => { s with sid := s.sid ++ "-" ++ department })
  let stmts := modifyIdx stmts deny_bucket_index (fun s =>
    { s with resource := s.resource ++
        ["arn:aws:s3:::" ++ get_staging_bucket_name department] })
  let stmts := modifyIdx stmts allow_full_access_index (fun s =>
    { s with resource := s.resource ++
        ["arn:aws:s3:::" ++ get_staging_bucket_name department ++ "/*",
         "arn:aws:s3:::" ++ get_dominode_staging_root_dir_name department ++ "*",
         "arn:aws:s3:::" ++ get_public_root_dir_name department ++ "*"] })
  { policy with statement := stmts }

/-- Embeds `minioadmin.get_editor_policy`: policy for an editor over the input
departments. -/
def get_editor_policy (departments : List String) : Policy :=
  let base : Policy := {
    version := POLICY_VERSION
    statement := [
      { sid := "editor-user-deny-bucket-delete"
        action := ["s3:DeleteBucket"]
        effect := "Deny"
        resource := ["arn:aws:s3:::" ++ DOMINODE_STAGING_BUCKET_NAME] },
      { sid := "editor-user-allow-full-access"
        action := ["s3:*"]
        effect := "Allow"
        resource := [] },
      { sid := "editor-user-read-only-access"
        action := ["s3:GetBucketLocation", "s3:ListBucket", "s3:GetObject"]
        effect := "Allow"
        resource := ["arn:aws:s3:::" ++ DOMINODE_STAGING_BUCKET_NAME ++ "/*",
                     "arn:aws:s3:::" ++ PUBLIC_BUCKET_NAME ++ "/*"] }
    ] }
  departments.foldl editor_policy_step base

end Minioadmin

/-! ## minioadmin.py — stateful admin operations

The minio server is modelled as an abstract state (users, groups,
policies, group memberships); each admin operation updates the state and
emits a trace of the `mc admin` commands it issues.  The external server
is idealized as always reporting success for commands actually issued.
-/

namespace Minioadmin

/-- Python f-string interpolation of an optional value; `None` renders as
the string `"None"`. -/
def pyOptStr : Option String → String
  | none => "None"
  | some s => s

/-- Admin commands issued to the minio server. -/
inductive MAction where
  | userAdd (access_key : String) : MAction
  | userRemove (access_key : String) : MAction
  | policyAdd (name : String) (doc : Policy) : MAction
  | policySet (arguments : String) : MAction
  | groupAdd (group : String) (member : String) : MAction
deriving DecidableEq, Repr

/-- Embeds `MinioManager.set_policy`: validates the target and returns the admin
command with its argument string; the `user is not None` branch
interpolates the `group` variable into the suffix. -/
def set_policy (policy : String) (user : Option String)
    (group : Option String) : Except String (String × String) :=
  if user = none ∧ group = none then
    Except.error "Must provide either `user` or `group`"
  else if user ≠ none then
    Except.ok ("policy set", policy ++ " " ++ "user=" ++ pyOptStr group)
  else
    Except.ok ("policy set", policy ++ " " ++ "group=" ++ pyOptStr group)

/-- Abstract state of the minio server. -/
structure MinioState where
  users : List String
  groups : List String
  policies : List String
  memberships : List (String × String)
deriving DecidableEq, Repr

/-- Embeds `minioadmin.create_user`: fetches the user list, validates the length
of the (admin) `secret_key` parameter, then creates the user unless it
already exists (unless `force`).  Returns the reported success flag, the
updated user list and the issued commands. -/
def create_user (user_access_key user_secret_key secret_key : String)
    (users : List String) (force : Bool) :
    Except String (Bool × List String × List MAction) :=
  if secret_key.length < 8 then
    Except.error "Please choose a secret key with 8 or more characters"
  else
    let user_already_exists := users.contains user_access_key
    if !user_already_exists || (user_already_exists && force) then
      Except.ok (true,
        (if user_already_exists then users else users ++ [user_access_key]),
        [MAction.userAdd user_access_key])
    else if user_already_exists then
      Except.ok (true, users, [])
    else
      Except.ok (false, users, [])

/-- Embeds `minioadmin.create_group`: no-op when the group already exists;
otherwise creates it through the temporary-user dance (minio cannot
create empty groups). -/
def create_group (group : String) (secret_key : String) (st : MinioState) :
    Except String (Option String × MinioState × List MAction) :=
  if st.groups.contains group then
    Except.ok (some group, st, [])
  else
    match create_user "tempuser" "12345678" secret_key st.users true with
    | Except.error e => Except.error e
    | Except.ok (created, users1, acts1) =>
      if created then
        Except.ok (some group,
          { st with
              groups := st.groups ++ [group]
              users := users1.filter (fun u => u ≠ "tempuser") },
          acts1 ++ [MAction.groupAdd group "tempuser",
            MAction.userRemove "tempuser"])
      else
        Except.error "generator did not yield"

/-- Embeds `MinioManager.policy_exists`. -/
def policy_exists (name : String) (st : MinioState) : Bool :=
  st.policies.contains name

/-- Embeds `minioadmin.add_department_user` (storage path): create the user,
then create policy, group and policy attachment only when the policy does
not already exist, and finally add the user to the group. -/
def add_department_user (user_access_key user_secret_key : String)
    (departments : List String) (role : UserRole) (secret_key : String)
    (st : MinioState) : Except String (MinioState × List MAction) :=
  match create_user user_access_key user_secret_key secret_key st.users false with
  | Except.error e => Except.error e
  | Except.ok (added, users1, acts1) =>
    let st1 := { st with users := users1 }
    if !added then
      Except.error ("Could not add user " ++ user_access_key)
    else
      let policy_name := get_policy_name role departments
      let group_name := get_group_name role policy_name
      let creation : Except String (MinioState × List MAction) :=
        if policy_exists policy_name st1 then
          Except.ok (st1, [])
        else
          let policy := match role with
            | UserRole.regular_department_user => get_user_policy departments
            | UserRole.editor => get_editor_policy departments
          let st2 := { st1 with policies := st1.policies ++ [policy_name] }
          match create_group group_name secret_key st2 with
          | Except.error e => Except.error e
          | Except.ok (_, st3, acts3) =>
            match set_policy policy_name none (some group_name) with
            | Except.error e => Except.error e
            | Except.ok (_, arguments) =>
              Except.ok (st3,
                MAction.policyAdd policy_name policy :: acts3 ++
                  [MAction.policySet arguments])
      match creation with
      | Except.error e => Except.error e
      | Except.ok (st4, acts4) =>
        Except.ok (
          { st4 with
              memberships := st4.memberships ++ [(group_name, user_access_key)] },
          acts1 ++ acts4 ++ [MAction.groupAdd group_name user_access_key])

end Minioadmin

/-! ## dbadmin.py

The postgres database is modelled as an abstract state (roles with their
memberships and options, schemas with their owners, tables with
ownership/permission adjustments, schema grants); each operation updates
the state and emits the SQL statements it executes.  SQL quoting details
are elided: statements are recorded structurally.
-/

namespace Dbadmin

def LSD_TOPOMAP_EDITOR_ROLE_NAME : String := "lsd_topomap_editor"

/-- Mutating SQL statements issued by `dbadmin`. -/
inductive SQLStmt where
  | createRole (name : String) (parent_roles : Option (List String))
      (other_options : Option (List String)) : SQLStmt
  | createSchema (name owner : String) : SQLStmt
  | grantSchemaPermissions (schema : String) (permissions : List String)
      (role : String) : SQLStmt
  | createTable (qualified_name : String) : SQLStmt
  | alterTableOwner (qualified_name owner : String) : SQLStmt
  | revokeUpdate (qualified_name role : String) : SQLStmt
  | grantSelect (qualified_name role : String) : SQLStmt
deriving DecidableEq, Repr

structure PGRole where
  name : String
  memberOf : List String
  options : List String
deriving DecidableEq, Repr

structure PGSchema where
  name : String
  owner : String
deriving DecidableEq, Repr

structure PGTable where
  schema : String
  name : String
  owner : String
  updateRevokedFrom : List String
  selectGrantedTo : List String
deriving DecidableEq, Repr

structure PGGrant where
  schema : String
  permissions : List String
  role : String
deriving DecidableEq, Repr

/-- Abstract state of the postgres database. -/
structure DBState where
  roles : List PGRole
  schemas : List PGSchema
  tables : List PGTable
  grants : List PGGrant
deriving DecidableEq, Repr

def emptyDBState : DBState := ⟨[], [], [], []⟩

/-- Embeds `dbadmin.check_for_role`: `SELECT EXISTS(... FROM pg_roles ...)`. -/
def check_for_role (role : String) (st : DBState) : Bool :=
  st.roles.any (fun r => r.name == role)

/-- Embeds `dbadmin.create_role`: only issues `CREATE ROLE` when the existence
check fails; otherwise skips. -/
def create_role (name : String) (st : DBState)
    (parent_roles : Option (List String))
    (other_options : Option (List String)) : DBState × List SQLStmt :=
  if check_for_role name st then
    (st, [])
  else
    ({ st with roles := st.roles ++
        [{ name := name
           memberOf := parent_roles.getD []
           options := other_options.getD [] }] },
      [SQLStmt.createRole name parent_roles other_options])

/-- Embeds `dbadmin.create_user`: a role with `LOGIN` and a password option. -/
def create_user (name password : String) (st : DBState)
    (parent_roles : Option (List String)) : DBState × List SQLStmt :=
  create_role name st parent_roles (some ["LOGIN", "PASSWORD " ++ password])

/-- Embeds `dbadmin.create_schema`: `CREATE SCHEMA IF NOT EXISTS ... AUTHORIZATION`. -/
def create_schema (name owner : String) (st : DBState) :
    DBState × List SQLStmt :=
  ((if st.schemas.any (fun s => s.name == name) then st
    else { st with schemas := st.schemas ++ [⟨name, owner⟩] }),
   [SQLStmt.createSchema name owner])

/-- Embeds `dbadmin.grant_schema_permissions`. -/
def grant_schema_permissions (schema : String) (permissions : List String)
    (role : String) (st : DBState) : DBState × List SQLStmt :=
  ({ st with grants := st.grants ++ [⟨schema, permissions, role⟩] },
   [SQLStmt.grantSchemaPermissions schema permissions role])

/-- Apply `f` to the (unique) table named `name` under `schema`. -/
def updateTable (st : DBState) (schema name : String)
    (f : PGTable → PGTable) : DBState :=
  { st with tables := (st.tables.map
      (fun t => if t.schema == schema && t.name == name then f t else t)) }

/-- Embeds `dbadmin.create_qgis_projects_table`: `CREATE TABLE IF NOT EXISTS`,
always followed by `ALTER TABLE ... OWNER TO`, optionally revoking
`UPDATE` from the owner and granting `SELECT`. -/
def create_qgis_projects_table (st : DBState) (schema owner : String)
    (revoke_owner_updates : Bool) (grant_select_to : Option String) :
    DBState × List SQLStmt :=
  let qualified := schema ++ ".qgis_projects"
  let st1 :=
    if st.tables.any (fun t => t.schema == schema && t.name == "qgis_projects")
    then st
    else { st with tables := st.tables ++ [⟨schema, "qgis_projects", "", [], []⟩] }
  let st2 := updateTable st1 schema "qgis_projects" (fun t => { t with owner := owner })
  let tr1 := [SQLStmt.createTable qualified, SQLStmt.alterTableOwner qualified owner]
  let step3 : DBState × List SQLStmt :=
    if revoke_owner_updates then
      (updateTable st2 schema "qgis_projects"
        (fun t => { t with updateRevokedFrom := t.updateRevokedFrom ++ [owner] }),
       [SQLStmt.revokeUpdate qualified owner])
    else (st2, [])
  let step4 : DBState × List SQLStmt :=
    match grant_select_to with
    | some r =>
      (updateTable step3.1 schema "qgis_projects"
        (fun t => { t with selectGrantedTo := t.selectGrantedTo ++ [r] }),
       [SQLStmt.grantSelect qualified r])
    | none => (step3.1, [])
  (step4.1, tr1 ++ step3.2 ++ step4.2)

/-- Embeds `dbadmin.bootstrap_lsd_topomaps`. -/
def bootstrap_lsd_topomaps (st : DBState) (user_role_name : String) :
    DBState × List SQLStmt :=
  let r1 := create_role LSD_TOPOMAP_EDITOR_ROLE_NAME st (some [user_role_name]) none
  let r2 := create_schema "lsd_topomaps" LSD_TOPOMAP_EDITOR_ROLE_NAME r1.1
  let r3 := grant_schema_permissions "lsd_topomaps" ["USAGE"] user_role_name r2.1
  let r4 := create_qgis_projects_table r3.1 "lsd_topomaps"
    LSD_TOPOMAP_EDITOR_ROLE_NAME true (some user_role_name)
  (r4.1, r1.2 ++ r2.2 ++ r3.2 ++ r4.2)

end Dbadmin

namespace Dbadmin

/-- Embeds `dbadmin.bootstrap_department`: per-department database provisioning;
raises a `KeyError` when the department has no `geoserver_password`
configuration entry. -/
def bootstrap_department (st : DBState)
    (department generic_user_name : String) :
    Except String (DBState × List SQLStmt) :=
  let user_role := department ++ "_user"
  let editor_role := department ++ "_editor"
  let r1 := create_role user_role st (some ["dominode_user"]) none
  let r2 := create_role editor_role r1.1 (some ["editor", user_role]) none
  let staging_schema_name := department ++ "_staging"
  let r3 := create_schema staging_schema_name editor_role r2.1
  let r4 := grant_schema_permissions staging_schema_name ["USAGE", "CREATE"]
    user_role r3.1
  let r5 := create_qgis_projects_table r4.1 staging_schema_name user_role
    false none
  match Utils.default_geoserver_password department with
  | none => Except.error ("KeyError: " ++ department ++ "-department")
  | some geoserver_password =>
    let r6 := create_user (Utils.get_geoserver_db_username department)
      geoserver_password r5.1 (some [generic_user_name])
    let r7 := if department = "lsd" then bootstrap_lsd_topomaps r6.1 user_role
      else (r6.1, [])
    Except.ok (r7.1, r1.2 ++ r2.2 ++ r3.2 ++ r4.2 ++ r5.2 ++ r6.2 ++ r7.2)

/-- The membership list of a role, when the role exists. -/
def roleParents (st : DBState) (name : String) : Option (List String) :=
  (st.roles.find? (fun r => r.name == name)).map PGRole.memberOf

/-- The owner of a schema, when the schema exists. -/
def schemaOwner (st : DBState) (name : String) : Option String :=
  (st.schemas.find? (fun s => s.name == name)).map PGSchema.owner

/-- The table named `name` under `schema`, when it exists. -/
def findTable (st : DBState) (schema name : String) : Option PGTable :=
  st.tables.find? (fun t => t.schema == schema && t.name == name)

/-- Embeds `dbadmin.get_db_connection`: the bounded connection-retry loop.
`connectOk i` tells whether the i-th `engine.connect()` attempt succeeds.
Returns the attempted try indices, the sleeps performed (in seconds)
between attempts, and either the index of the successful attempt or the
propagated connection error. -/
def connLoop (connectOk : Nat → Bool) (sleep_for : Nat) :
    Nat → Nat → List Nat × List Nat × Except Unit Nat
  | _, 0 => ([], [], Except.error ())
  | current_try, remaining + 1 =>
    if connectOk current_try then
      ([current_try], [], Except.ok current_try)
    else if remaining = 0 then
      ([current_try], [], Except.error ())
    else
      let rest := connLoop connectOk sleep_for (current_try + 1) remaining
      (current_try :: rest.1, sleep_for :: rest.2.1, rest.2.2)

/-- Embeds `dbadmin.get_db_connection` with the source's constants:
`max_tries = 30`, `sleep_for = 2`. -/
def get_db_connection (connectOk : Nat → Bool) :
    List Nat × List Nat × Except Unit Nat :=
  connLoop connectOk 2 0 30

end Dbadmin

/-! ## geonodeadmin.py

GeoNode/GeoServer requests are modelled as a trace of actions; the
server's pre-existing state (groups, categories, workspaces, geofence
rules, user existence, group profiles) is supplied as oracle inputs, and
the per-department secrets of the configuration as a lookup function. -/

namespace Geonodeadmin

def INTERNAL_GEONODE_GROUP_NAME : String := "dominode-internal"

def EDITOR_GROUP_CATEGORY_NAME : String := "dominode-editor"

def get_geonode_group_name (department : String) : String :=
  department ++ "-editor"

def get_geoserver_group_name (department : String) : String :=
  (get_geonode_group_name department).toUpper

inductive GNAction where
  | login : GNAction
  | logout : GNAction
  | createGroupCategory (name : String) : GNAction
  | createGroupProfile (name : String) : GNAction
  | addUser (username : String) : GNAction
  | addUserToGroup (username group : String) : GNAction
  | createWorkspace (name : String) : GNAction
  | createGeofenceAdminRule (workspace role_name : String) : GNAction
  | createGeofenceDataRule (workspace role_name : String) : GNAction
  | createPostgisStore (workspace store_name : String) : GNAction
deriving DecidableEq, Repr

def bootstrap_department_in_geoserver (department : String)
    (existing_workspaces existing_rule_role_names : List String) :
    List GNAction :=
  if existing_workspaces.contains department then []
  else
    let role_name := "ROLE_" ++ get_geoserver_group_name department
    [GNAction.createWorkspace department] ++
    (if existing_rule_role_names.contains role_name then []
     else [GNAction.createGeofenceAdminRule department role_name,
           GNAction.createGeofenceDataRule department role_name]) ++
    [GNAction.createPostgisStore department ("dominode_db_" ++ department)]

def add_department (department : String)
    (existing_workspaces existing_rule_role_names : List String) :
    List GNAction :=
  GNAction.createGroupProfile (get_geonode_group_name department) ::
    bootstrap_department_in_geoserver department existing_workspaces
      existing_rule_role_names

def bootstrapDeptLoop (secret : String → Option String)
    (existing_group_names existing_workspaces existing_rule_role_names :
      List String) :
    List String → List GNAction × Except String Unit
  | [] => ([], Except.ok ())
  | d :: ds =>
    match secret d with
    | none => ([], Except.error
        ("Could not retrieve geoserver database user password for department "
          ++ d))
    | some _ =>
      let acts :=
        if existing_group_names.contains (get_geonode_group_name d) then []
        else add_department d existing_workspaces existing_rule_role_names
      let rest := bootstrapDeptLoop secret existing_group_names
        existing_workspaces existing_rule_role_names ds
      (acts ++ rest.1, rest.2)

def bootstrap (departments : List String) (secret : String → Option String)
    (category_exists : Bool)
    (existing_group_names existing_workspaces existing_rule_role_names :
      List String) :
    List GNAction × Except String Unit :=
  let pre := [GNAction.login] ++
    (if category_exists then []
     else [GNAction.createGroupCategory EDITOR_GROUP_CATEGORY_NAME])
  let loop := bootstrapDeptLoop secret existing_group_names
    existing_workspaces existing_rule_role_names departments
  match loop.2 with
  | Except.error e => (pre ++ loop.1, Except.error e)
  | Except.ok _ =>
    (pre ++ loop.1 ++
      [GNAction.createGroupProfile INTERNAL_GEONODE_GROUP_NAME,
       GNAction.logout],
     Except.ok ())

def addUserGroupsLoop (username : String)
    (group_profile : String → Option String) :
    List String → List GNAction × Except String Unit
  | [] => ([], Except.ok ())
  | n :: ns =>
    match group_profile n with
    | none => ([], Except.error ("group " ++ n ++ " not found"))
    | some slug =>
      let rest := addUserGroupsLoop username group_profile ns
      (GNAction.addUserToGroup username slug :: rest.1, rest.2)

def add_department_user (username _password : String)
    (departments : List String) (role : Constants.UserRole)
    (user_exists : Bool) (group_profile : String → Option String) :
    List GNAction × Except String Unit :=
  let group_names := match role with
    | Constants.UserRole.editor => departments.map get_geonode_group_name
    | Constants.UserRole.regular_department_user =>
        [INTERNAL_GEONODE_GROUP_NAME]
  let pre := [GNAction.login] ++
    (if user_exists then [] else [GNAction.addUser username])
  let loop := addUserGroupsLoop username group_profile group_names
  match loop.2 with
  | Except.error e => (pre ++ loop.1, Except.error e)
  | Except.ok _ => (pre ++ loop.1 ++ [GNAction.logout], Except.ok ())

end Geonodeadmin

/-! ## Supporting lemmas -/

/-- Sorting is invariant under permutation of the input. -/
theorem pySorted_perm_invariant {l₁ l₂ : List String} (h : l₁.Perm l₂) :
    pySorted l₁ = pySorted l₂ :=
  List.eq_of_perm_of_sorted
    ((List.perm_insertionSort PyLe l₁).trans
      (h.trans (List.perm_insertionSort PyLe l₂).symm))
    (List.sorted_insertionSort PyLe l₁)
    (List.sorted_insertionSort PyLe l₂)

/-- Right-cancellation of string append, used to show the naming
derivation is injective across distinct departments. -/
theorem string_append_right_cancel {a b s : String} (h : a ++ s = b ++ s) :
    a = b := by
  have hd : a.data ++ s.data = b.data ++ s.data := by
    rw [← String.data_append, ← String.data_append, h]
  have h2 := List.append_cancel_right hd
  cases a; cases b
  exact congrArg String.mk h2

/-- Running the connection loop when every attempt in range fails:
all tries are attempted, a fixed sleep separates consecutive attempts,
and the error propagates. -/
theorem connLoop_all_fail (connectOk : Nat → Bool) (sleep_for : Nat) :
    ∀ n c, 0 < n → (∀ i, c ≤ i → i < c + n → connectOk i = false) →
      Dbadmin.connLoop connectOk sleep_for c n =
        (List.range' c n, List.replicate (n - 1) sleep_for, Except.error ()) := by
  intro n
  induction n with
  | zero => intro c h; exact absurd h (by simp)
  | succ m ih =>
    intro c _ hfail
    have hc : connectOk c = false := hfail c (Nat.le_refl c) (by omega)
    cases m with
    | zero =>
      simp [Dbadmin.connLoop, hc, List.range']
    | succ k =>
      have hrec := ih (c + 1) (Nat.succ_pos k)
        (fun i hi1 hi2 => hfail i (by omega) (by omega))
      have step : Dbadmin.connLoop connectOk sleep_for c (k + 1 + 1) =
          (c :: (Dbadmin.connLoop connectOk sleep_for (c + 1) (k + 1)).1,
           sleep_for :: (Dbadmin.connLoop connectOk sleep_for (c + 1) (k + 1)).2.1,
           (Dbadmin.connLoop connectOk sleep_for (c + 1) (k + 1)).2.2) := by
        simp [Dbadmin.connLoop, hc]
      rw [step, hrec]
      simp [List.range', List.replicate_succ]

/-- Running the connection loop when attempt `k` is the first to
succeed. -/
theorem connLoop_first_success (connectOk : Nat → Bool) (sleep_for : Nat) :
    ∀ k n c, k < n → (∀ i, i < k → connectOk (c + i) = false) →
      connectOk (c + k) = true →
      Dbadmin.connLoop connectOk sleep_for c n =
        (List.range' c (k + 1), List.replicate k sleep_for,
          Except.ok (c + k)) := by
  intro k
  induction k with
  | zero =>
    intro n c hkn _ hk
    cases n with
    | zero => omega
    | succ m =>
      have hc : connectOk c = true := by simpa using hk
      simp [Dbadmin.connLoop, hc, List.range']
  | succ j ih =>
    intro n c hkn hfail hk
    cases n with
    | zero => omega
    | succ m =>
      have hc : connectOk c = false := by simpa using hfail 0 (Nat.succ_pos j)
      have hm : m ≠ 0 := by omega
      have hrec := ih m (c + 1) (by omega)
        (fun i hi => by
          have heq : c + 1 + i = c + (i + 1) := by omega
          rw [heq]
          exact hfail (i + 1) (by omega))
        (by
          have heq : c + 1 + j = c + (j + 1) := by omega
          rw [heq]
          exact hk)
      have step : Dbadmin.connLoop connectOk sleep_for c (m + 1) =
          (c :: (Dbadmin.connLoop connectOk sleep_for (c + 1) m).1,
           sleep_for :: (Dbadmin.connLoop connectOk sleep_for (c + 1) m).2.1,
           (Dbadmin.connLoop connectOk sleep_for (c + 1) m).2.2) := by
        cases m with
        | zero => exact absurd rfl hm
        | succ p => simp [Dbadmin.connLoop, hc]
      rw [step, hrec]
      have heq2 : c + 1 + j = c + (j + 1) := by omega
      simp [List.range', List.replicate_succ, heq2]

/-- Department bootstrap actions in GeoServer never create a GeoNode
group profile. -/
theorem createGroupProfile_not_in_geoserver_actions
    (n x : String) (ews ern : List String) :
    Geonodeadmin.GNAction.createGroupProfile n ∉
      Geonodeadmin.bootstrap_department_in_geoserver x ews ern := by
  by_cases h1 : ews.contains x <;>
    by_cases h2 : ern.contains
      ("ROLE_" ++ Geonodeadmin.get_geoserver_group_name x) <;>
    simp [Geonodeadmin.bootstrap_department_in_geoserver, h1, h2]

/-- Processing the department list of the GIS bootstrap stops with a
configuration error at a department whose secret is missing, before that
department's group profile is created. -/
theorem bootstrapDeptLoop_missing_secret
    (secret : String → Option String)
    (existing_group_names existing_workspaces existing_rule_role_names :
      List String) :
    ∀ (departments : List String) (d : String), d ∈ departments →
      secret d = none →
      (∃ e, (Geonodeadmin.bootstrapDeptLoop secret existing_group_names
          existing_workspaces existing_rule_role_names departments).2 =
        Except.error e) ∧
      Geonodeadmin.GNAction.createGroupProfile
          (Geonodeadmin.get_geonode_group_name d) ∉
        (Geonodeadmin.bootstrapDeptLoop secret existing_group_names
          existing_workspaces existing_rule_role_names departments).1 := by
  intro departments
  induction departments with
  | nil => intro d hd; exact absurd hd (List.not_mem_nil d)
  | cons x ds ih =>
    intro d hd hsec
    cases hx : secret x with
    | none =>
      simp [Geonodeadmin.bootstrapDeptLoop, hx]
    | some s =>
      have hxd : x ≠ d := fun h => by rw [h, hsec] at hx; cases hx
      have hdds : d ∈ ds := by
        cases List.mem_cons.mp hd with
        | inl h => exact absurd h.symm hxd
        | inr h => exact h
      have hrec := ih d hdds hsec
      have hname : Geonodeadmin.get_geonode_group_name x ≠
          Geonodeadmin.get_geonode_group_name d :=
        fun h => hxd (string_append_right_cancel h)
      constructor
      · obtain ⟨e, he⟩ := hrec.1
        exact ⟨e, by simp [Geonodeadmin.bootstrapDeptLoop, hx, he]⟩
      · simp only [Geonodeadmin.bootstrapDeptLoop, hx, List.mem_append]
        intro hmem
        rcases hmem with h | h
        · by_cases hg : existing_group_names.contains
              (Geonodeadmin.get_geonode_group_name x)
          · rw [if_pos hg] at h
            exact absurd h (List.not_mem_nil _)
          · rw [if_neg hg] at h
            cases List.mem_cons.mp h with
            | inl heq =>
              have h3 : Geonodeadmin.get_geonode_group_name d =
                  Geonodeadmin.get_geonode_group_name x := by
                injection heq
              exact hname h3.symm
            | inr hmem2 =>
              exact createGroupProfile_not_in_geoserver_actions _ _ _ _ hmem2
        · exact hrec.2 h


/-! ## Claims -/

/-- Claim C1: creation is guarded by an existence check: when
`check_for_role` reports the role present, `create_role` issues no
statement at all (in particular no `CREATE ROLE`); and when
`policy_exists` reports the policy present, the storage
`add_department_user` performs no policy, group or policy-attachment
creation (the trace holds no policy-add and no policy-set command, and
the server's groups and policies are unchanged). -/
theorem claim_C1 (name : String) (parent_roles other_options : Option (List String))
    (dbst : Dbadmin.DBState)
    (user_access_key user_secret_key secret_key : String)
    (departments : List String) (role : Constants.UserRole)
    (mst : Minioadmin.MinioState)
    (hrole : Dbadmin.check_for_role name dbst = true)
    (hpol : Minioadmin.policy_exists
      (Minioadmin.get_policy_name role departments) mst = true)
    (hsk : 8 ≤ secret_key.length) :
    (Dbadmin.create_role name dbst parent_roles other_options).2 = [] ∧
    ∃ st tr,
      Minioadmin.add_department_user user_access_key user_secret_key
        departments role secret_key mst = Except.ok (st, tr) ∧
      tr.all (fun a => match a with
        | Minioadmin.MAction.policyAdd _ _ => false
        | Minioadmin.MAction.policySet _ => false
        | _ => true) = true ∧
      st.groups = mst.groups ∧ st.policies = mst.policies := by
  have h8 : ¬ secret_key.length < 8 := Nat.not_lt.mpr hsk
  constructor
  · simp [Dbadmin.create_role, hrole]
  · simp only [Minioadmin.policy_exists] at hpol
    simp at hpol
    by_cases hc : user_access_key ∈ mst.users
    · simp [Minioadmin.add_department_user, Minioadmin.create_user, h8, hc,
        Minioadmin.policy_exists, hpol]
      exact ⟨_, _, ⟨rfl, rfl⟩, by simp, rfl, rfl⟩
    · simp [Minioadmin.add_department_user, Minioadmin.create_user, h8, hc,
        Minioadmin.policy_exists, hpol]
      exact ⟨_, _, ⟨rfl, rfl⟩, by simp, rfl, rfl⟩

/-- Claim C1 witness: concrete second-run states — a database already
holding `lsd_user` and a minio server already holding the
`lsd-regular-user-group-policy` policy. -/
theorem claim_C1_witness :
    (Dbadmin.create_role "lsd_user"
      ⟨[⟨"lsd_user", [], []⟩], [], [], []⟩ none none).2 = [] ∧
    ∃ st tr,
      Minioadmin.add_department_user "bob" "bobsecret" ["lsd"]
        Constants.UserRole.regular_department_user "admin123"
        ⟨[], [], ["lsd-regular-user-group-policy"], []⟩ = Except.ok (st, tr) ∧
      tr.all (fun a => match a with
        | Minioadmin.MAction.policyAdd _ _ => false
        | Minioadmin.MAction.policySet _ => false
        | _ => true) = true ∧
      st.groups = [] ∧ st.policies = ["lsd-regular-user-group-policy"] :=
  claim_C1 "lsd_user" none none ⟨[⟨"lsd_user", [], []⟩], [], [], []⟩
    "bob" "bobsecret" "admin123" ["lsd"]
    Constants.UserRole.regular_department_user
    ⟨[], [], ["lsd-regular-user-group-policy"], []⟩
    (by decide) (by decide) (by decide)

/-- Claim C2: for every role and every pair of department lists containing
the same departments in any order, `get_policy_name` returns the identical
policy name, equal to the sorted department names joined by dashes followed
by the role suffix. -/
theorem claim_C2 (role : UserRole) (l₁ l₂ : List String) (h : l₁.Perm l₂) :
    Minioadmin.get_policy_name role l₁ = Minioadmin.get_policy_name role l₂ ∧
    Minioadmin.get_policy_name role l₁ =
      String.intercalate "-" (pySorted l₁) ++
        (match role with
          | UserRole.regular_department_user => "-regular-user-group-policy"
          | UserRole.editor => "-editor-group-policy") := by
  constructor
  · cases role <;>
      simp [Minioadmin.get_policy_name, pySorted_perm_invariant h]
  · cases role <;> rfl

/-- Claim C2 witness: the two orderings of dept list `["ppd", "lsd"]` give
the same, sorted-derived, policy name. -/
theorem claim_C2_witness :
    Minioadmin.get_policy_name UserRole.regular_department_user ["ppd", "lsd"] =
      Minioadmin.get_policy_name UserRole.regular_department_user ["lsd", "ppd"] ∧
    Minioadmin.get_policy_name UserRole.regular_department_user ["ppd", "lsd"] =
      String.intercalate "-" (pySorted ["ppd", "lsd"]) ++
        "-regular-user-group-policy" :=
  claim_C2 UserRole.regular_department_user ["ppd", "lsd"] ["lsd", "ppd"]
    (by decide)

/-- Claim C3: `get_user_policy ["lsd", "ppd"]` contains a deny-delete
statement covering both department staging buckets, an allow-all statement
covering both departments' staging bucket contents and dominode-staging
sub-directories, and no resource entry under any sub-path of the public
bucket (the only public-bucket resource is the read-only `public/*`). -/
theorem claim_C3 :
    (∃ s ∈ (Minioadmin.get_user_policy ["lsd", "ppd"]).statement,
      s.effect = "Deny" ∧ "s3:DeleteBucket" ∈ s.action ∧
      "arn:aws:s3:::lsd-staging" ∈ s.resource ∧
      "arn:aws:s3:::ppd-staging" ∈ s.resource) ∧
    (∃ s ∈ (Minioadmin.get_user_policy ["lsd", "ppd"]).statement,
      s.effect = "Allow" ∧ "s3:*" ∈ s.action ∧
      "arn:aws:s3:::lsd-staging/*" ∈ s.resource ∧
      "arn:aws:s3:::ppd-staging/*" ∈ s.resource ∧
      "arn:aws:s3:::dominode-staging/lsd/*" ∈ s.resource ∧
      "arn:aws:s3:::dominode-staging/ppd/*" ∈ s.resource) ∧
    (∀ s ∈ (Minioadmin.get_user_policy ["lsd", "ppd"]).statement,
      ∀ r ∈ s.resource,
        List.isPrefixOf "arn:aws:s3:::public/".data r.data = true →
          r = "arn:aws:s3:::public/*") := by
  decide

/-- Claim C4: the allow-all statement of `get_editor_policy ["ppd"]`
includes the `public/ppd/` sub-directory resource, which appears in no
statement of `get_user_policy ["ppd"]`. -/
theorem claim_C4 :
    (∃ s ∈ (Minioadmin.get_editor_policy ["ppd"]).statement,
      s.effect = "Allow" ∧ "s3:*" ∈ s.action ∧
      "arn:aws:s3:::public/ppd/*" ∈ s.resource) ∧
    (∀ s ∈ (Minioadmin.get_user_policy ["ppd"]).statement,
      "arn:aws:s3:::public/ppd/*" ∉ s.resource) := by
  decide

/-- Claim C5: for the empty department list both policy generators return
exactly the three base statements (deny-delete on the shared staging
bucket, allow-all with no resources, read-only on the shared staging and
public bucket contents) and no department-scoped resource entry. -/
theorem claim_C5 :
    Minioadmin.get_user_policy [] =
      { version := "2012-10-17"
        statement := [
          { sid := "regular-user-deny-bucket-delete"
            action := ["s3:DeleteBucket"]
            effect := "Deny"
            resource := ["arn:aws:s3:::dominode-staging"] },
          { sid := "regular-user-allow-full-access"
            action := ["s3:*"]
            effect := "Allow"
            resource := [] },
          { sid := "regular-user-read-only-access"
            action := ["s3:GetBucketLocation", "s3:ListBucket", "s3:GetObject"]
            effect := "Allow"
            resource := ["arn:aws:s3:::dominode-staging/*",
                         "arn:aws:s3:::public/*"] }] } ∧
    Minioadmin.get_editor_policy [] =
      { version := "2012-10-17"
        statement := [
          { sid := "editor-user-deny-bucket-delete"
            action := ["s3:DeleteBucket"]
            effect := "Deny"
            resource := ["arn:aws:s3:::dominode-staging"] },
          { sid := "editor-user-allow-full-access"
            action := ["s3:*"]
            effect := "Allow"
            resource := [] },
          { sid := "editor-user-read-only-access"
            action := ["s3:GetBucketLocation", "s3:ListBucket", "s3:GetObject"]
            effect := "Allow"
            resource := ["arn:aws:s3:::dominode-staging/*",
                         "arn:aws:s3:::public/*"] }] } :=
  ⟨rfl, rfl⟩

/-- Claim C6: bootstrapping the `lsd` department from an empty database
creates the `lsd_user` role, the `lsd_editor` role (member of `editor`
and `lsd_user`), the `lsd_staging` schema authorized to `lsd_editor`
with a `qgis_projects` table, and additionally the `lsd_topomap_editor`
role, the `lsd_topomaps` schema and its `qgis_projects` table owned by
`lsd_topomap_editor` with `UPDATE` revoked from the owner and `SELECT`
granted to `lsd_user`. -/
theorem claim_C6 :
    ∃ st tr,
      Dbadmin.bootstrap_department Dbadmin.emptyDBState "lsd" "dominode_user" =
        Except.ok (st, tr) ∧
      Dbadmin.check_for_role "lsd_user" st = true ∧
      Dbadmin.roleParents st "lsd_editor" = some ["editor", "lsd_user"] ∧
      Dbadmin.schemaOwner st "lsd_staging" = some "lsd_editor" ∧
      (Dbadmin.findTable st "lsd_staging" "qgis_projects").isSome = true ∧
      Dbadmin.check_for_role "lsd_topomap_editor" st = true ∧
      Dbadmin.schemaOwner st "lsd_topomaps" = some "lsd_topomap_editor" ∧
      (Dbadmin.findTable st "lsd_topomaps" "qgis_projects").any
        (fun t => t.owner == "lsd_topomap_editor" &&
          t.updateRevokedFrom.contains "lsd_topomap_editor" &&
          t.selectGrantedTo.contains "lsd_user") = true := by
  exact ⟨_, _, rfl, by decide, by decide, by decide, by decide, by decide,
    by decide, by decide⟩

/-- Claim C7: `get_db_connection` retries only the initial connection,
with a bound of 30 attempts and a fixed 2-second sleep between attempts;
when every attempt fails the error propagates after the 30th attempt,
and a first success at attempt `k` stops the loop there. -/
theorem claim_C7 (connectOk : Nat → Bool) :
    ((∀ i, i < 30 → connectOk i = false) →
      Dbadmin.get_db_connection connectOk =
        (List.range 30, List.replicate 29 2, Except.error ())) ∧
    (∀ k, k < 30 → (∀ i, i < k → connectOk i = false) →
      connectOk k = true →
      Dbadmin.get_db_connection connectOk =
        (List.range (k + 1), List.replicate k 2, Except.ok k)) := by
  constructor
  · intro h
    have hall := connLoop_all_fail connectOk 2 30 0 (by omega)
      (fun i h1 h2 => h i (by omega))
    simpa [Dbadmin.get_db_connection, List.range_eq_range'] using hall
  · intro k hk hfail hsucc
    have hfirst := connLoop_first_success connectOk 2 k 30 0 hk
      (fun i hi => by simpa using hfail i hi) (by simpa using hsucc)
    simpa [Dbadmin.get_db_connection, List.range_eq_range'] using hfirst

/-- Claim C7 witness: the always-failing oracle and an oracle whose
fourth attempt succeeds. -/
theorem claim_C7_witness :
    Dbadmin.get_db_connection (fun _ => false) =
      (List.range 30, List.replicate 29 2, Except.error ()) ∧
    Dbadmin.get_db_connection (fun i => i == 3) =
      (List.range 4, List.replicate 3 2, Except.ok 3) :=
  ⟨(claim_C7 (fun _ => false)).1 (fun i _ => rfl),
   (claim_C7 (fun i => i == 3)).2 3 (by omega)
     (fun i hi => by
       have hne : i ≠ 3 := by omega
       simp [hne])
     rfl⟩

/-- Claim C8 (amended): it is the GIS `bootstrap` command, not
`add_department_user`, that fails fast with a configuration error when a
department's geoserver secret is missing, before any GeoNode group is
created for that department. -/
theorem claim_C8 (departments : List String) (d : String)
    (secret : String → Option String) (category_exists : Bool)
    (existing_group_names existing_workspaces existing_rule_role_names :
      List String)
    (hmem : d ∈ departments) (hsec : secret d = none) :
    (∃ e, (Geonodeadmin.bootstrap departments secret category_exists
        existing_group_names existing_workspaces
        existing_rule_role_names).2 = Except.error e) ∧
    Geonodeadmin.GNAction.createGroupProfile
        (Geonodeadmin.get_geonode_group_name d) ∉
      (Geonodeadmin.bootstrap departments secret category_exists
        existing_group_names existing_workspaces
        existing_rule_role_names).1 := by
  have hloop := bootstrapDeptLoop_missing_secret secret existing_group_names
    existing_workspaces existing_rule_role_names departments d hmem hsec
  obtain ⟨⟨e, he⟩, hnot⟩ := hloop
  constructor
  · exact ⟨e, by simp [Geonodeadmin.bootstrap, he]⟩
  · cases category_exists <;> simp [Geonodeadmin.bootstrap, he, hnot]

/-- Claim C8 witness: a single `lsd` department with no secret
configured. -/
theorem claim_C8_witness :
    (∃ e, (Geonodeadmin.bootstrap ["lsd"] (fun _ => none) true
        [] [] []).2 = Except.error e) ∧
    Geonodeadmin.GNAction.createGroupProfile
        (Geonodeadmin.get_geonode_group_name "lsd") ∉
      (Geonodeadmin.bootstrap ["lsd"] (fun _ => none) true [] [] []).1 :=
  claim_C8 ["lsd"] "lsd" (fun _ => none) true [] [] [] (by decide) rfl

/-- Claim C8 counterexample: the GIS `add_department_user` command never
consults the department secrets at all — with the `lsd` department's
secret missing from the configuration it still completes successfully
(no configuration error, no fail-fast), refuting the claim as stated. -/
theorem claim_C8_counterexample :
    Geonodeadmin.add_department_user "alice" "pw" ["lsd"]
      Constants.UserRole.editor false (fun g => some g) =
    ([Geonodeadmin.GNAction.login, Geonodeadmin.GNAction.addUser "alice",
      Geonodeadmin.GNAction.addUserToGroup "alice" "lsd-editor",
      Geonodeadmin.GNAction.logout], Except.ok ()) := rfl

/-- Claim C9: `MinioManager.set_policy` with a non-`None` user builds
the command suffix from the `group` variable, yielding `user={group}`
(and in particular `user=None` when no group is given) instead of
`user={user}`. -/
theorem claim_C9 (policy : String) (u : String) (group : Option String) :
    Minioadmin.set_policy policy (some u) group =
      Except.ok ("policy set", policy ++ " " ++ "user=" ++ Minioadmin.pyOptStr group) ∧
    Minioadmin.set_policy policy (some u) none =
      Except.ok ("policy set", policy ++ " " ++ "user=" ++ "None") := by
  constructor
  · simp [Minioadmin.set_policy]
  · simp [Minioadmin.set_policy, Minioadmin.pyOptStr]

/-- Claim C10: the minimum-length validation in the storage backend's
`create_user` applies to the administrator's `secret_key` parameter, not
to the new user's `user_secret_key`: it errors whenever the admin secret
is shorter than 8 characters and never rejects any `user_secret_key`
when the admin secret has 8 or more characters. -/
theorem claim_C10 (user_access_key user_secret_key secret_key : String)
    (users : List String) (force : Bool) :
    (secret_key.length < 8 →
      Minioadmin.create_user user_access_key user_secret_key secret_key users force =
        Except.error "Please choose a secret key with 8 or more characters") ∧
    (8 ≤ secret_key.length →
      ∃ r, Minioadmin.create_user user_access_key user_secret_key secret_key users force =
        Except.ok r) := by
  constructor
  · intro h
    simp [Minioadmin.create_user, h]
  · intro h
    have h' : ¬ secret_key.length < 8 := Nat.not_lt.mpr h
    simp only [Minioadmin.create_user, h', if_false, if_neg h']
    split
    · exact ⟨_, rfl⟩
    · split
      · exact ⟨_, rfl⟩
      · exact ⟨_, rfl⟩

/-- Claim C10 witness: a five-character admin secret is rejected even
for a long user secret; an eight-character admin secret is accepted even
for a one-character user secret. -/
theorem claim_C10_witness :
    Minioadmin.create_user "u1" "averylongusersecret" "admin" [] false =
      Except.error "Please choose a secret key with 8 or more characters" ∧
    ∃ r, Minioadmin.create_user "u1" "x" "admin123" [] false =
      Except.ok r :=
  ⟨(claim_C10 "u1" "averylongusersecret" "admin" [] false).1 (by decide),
   (claim_C10 "u1" "x" "admin123" [] false).2 (by decide)⟩
